import Mathlib

/-!
Verification of src/autotst/conformer/ga.py (perform_ga), the genetic algorithm
that searches for the lowest-energy conformer of a molecule or transition state.

Modelling conventions:
* Python floats (energies, angles, probabilities, tolerances) are modelled as
  exact rationals.
* The two global seeded random sources used by the code (the Python random
  module and the numpy global RNG) are modelled as explicit streams of raw
  natural-number draws, threaded through every operation in the exact order the
  source consumes them.
* The external energy oracle (the per-gene ase set_dihedral calls, the
  update_from_ase resynchronisation, and the final get_potential_energy) is
  folded into one deterministic function from the full dihedral vector to an
  energy, which is how the spec (section 4.3) defines the Evaluator boundary.
* A pandas DataFrame with columns Energy, Torsion 0, Torsion 1, ... is a list
  of Individuals; row i column 0 is the energy and column j+1 is angles[j].
-/

namespace AutoTST

/-- One row of the GA DataFrame: the Energy column followed by the
Torsion 0, Torsion 1, ... columns. -/
structure Individual where
  energy : ℚ
  angles : List ℚ
  deriving DecidableEq

/-- One rotatable bond (ga.py lines 118-119): the four atom indices of the
dihedral and the mask of atoms that move with it.  The geometric effect of
set_dihedral is folded into the abstract evaluator, so only the count of
torsions matters to the algorithm itself. -/
structure Torsion where
  indices : Nat × Nat × Nat × Nat
  right_mask : List Bool
  deriving DecidableEq

/-- The ase structure driven by the run.  Applying a full dihedral vector and
reading get_potential_energy (ga.py lines 122-139) is modelled as one
deterministic function of the whole angle vector. -/
structure AseObject where
  get_potential_energy : List ℚ → ℚ

/-- The ts attribute of an AutoTST_Reaction (ga.py lines 91-92). -/
structure TransitionState where
  ase_ts : AseObject
  torsions : List Torsion

/-- The multi_object argument of perform_ga.  A Python object only has the
attributes its class defines; the model carries all of them and the class-name
dispatch below reads the relevant ones, exactly as ga.py lines 86-96 do. -/
structure MultiObject where
  className : String
  ase_molecule : AseObject
  torsions : List Torsion
  ts : TransitionState
  ase_ts : AseObject

/-- The Python substring test `pat in s`. -/
def strIncludes (s pat : String) : Bool :=
  (List.range (s.data.length + 1)).any (fun i => pat.data.isPrefixOf (s.data.drop i))

/-- The class-name dispatch of ga.py lines 86-96, selecting the ase object and
the torsion list.  Returns none when no branch matches, in which case the
local variables ase_object and torsions are never assigned in the source. -/
def resolveObject (m : MultiObject) : Option (AseObject × List Torsion) :=
  if strIncludes m.className "AutoTST_Molecule" then some (m.ase_molecule, m.torsions)
  else if strIncludes m.className "AutoTST_Reaction" then some (m.ts.ase_ts, m.ts.torsions)
  else if strIncludes m.className "AutoTST_TS" then some (m.ase_ts, m.torsions)
  else none

/-- The two global seeded random sources of ga.py: the Python random module
(random.sample on line 106, random.random on lines 110 and 113) and the numpy
global RNG (np.random.choice on line 111).  Each is an infinite stream of raw
draws plus a position. -/
structure Rng where
  pySeq : Nat → Nat
  pyPos : Nat
  npSeq : Nat → Nat
  npPos : Nat

/-- Consume one raw draw from the Python random stream. -/
def Rng.pyNext (r : Rng) : Nat × Rng :=
  (r.pySeq r.pyPos, { r with pyPos := r.pyPos + 1 })

/-- Consume one raw draw from the numpy random stream. -/
def Rng.npNext (r : Rng) : Nat × Rng :=
  (r.npSeq r.npPos, { r with npPos := r.npPos + 1 })

/-- random.random(): a uniform float in [0, 1); CPython produces 53 random
bits, modelled as a rational with denominator 2 to the 53. -/
def randomRandom (r : Rng) : ℚ × Rng :=
  let d := r.pyNext
  (((d.1 % 2 ^ 53 : ℕ) : ℚ) / ((2 ^ 53 : ℕ) : ℚ), d.2)

/-- random.sample(np.arange(n), 2) (ga.py line 106): two distinct indices in
[0, n), drawn uniformly without replacement (the second is drawn from the n - 1
remaining values).  CPython raises ValueError when n is smaller than 2; the
model is only used under that precondition. -/
def randomSample2 (n : Nat) (r : Rng) : (Nat × Nat) × Rng :=
  let d1 := r.pyNext
  let a := d1.1 % n
  let d2 := d1.2.pyNext
  let b1 := d2.1 % (n - 1)
  let b := if a ≤ b1 then b1 + 1 else b1
  ((a, b), d2.2)

/-- np.random.choice(xs) (ga.py line 111): a uniform element of xs.  numpy
raises ValueError on an empty xs; the model is only used with a nonempty grid
(delta greater than 0). -/
def npRandomChoice (xs : List ℚ) (r : Rng) : ℚ × Rng :=
  let d := r.npNext
  (xs.getD (d.1 % xs.length) 0, d.2)

/-- np.arange(start, stop, step) over rationals (ga.py line 76 uses
np.arange(0, 360, delta)).  As in numpy, the length is the ceiling of
(stop - start) / step clamped at 0, and element k is start + k * step.  numpy
raises ZeroDivisionError for step = 0; rational division by zero makes the
model return the empty list there, and the empty list is likewise what numpy
returns for a negative step when stop is above start. -/
def np_arange (start stop step : ℚ) : List ℚ :=
  (List.range ⌈(stop - start) / step⌉₊).map (fun k : ℕ => start + (k : ℚ) * step)

/-- Ascending comparison on the Energy column. -/
def energyLE (a b : Individual) : Prop := a.energy ≤ b.energy

instance : DecidableRel energyLE :=
  fun a b => inferInstanceAs (Decidable (a.energy ≤ b.energy))

instance : IsTotal Individual energyLE := ⟨fun a b => le_total a.energy b.energy⟩

instance : IsTrans Individual energyLE := ⟨fun _ _ _ hab hbc => le_trans hab hbc⟩

/-- df.sort_values("Energy") (ga.py line 150): the DataFrame sorted ascending
by the Energy column.  pandas leaves the relative order of equal energies
unspecified (its default sort is not stable); the model fixes the stable
order. -/
def sortByEnergy (df : List Individual) : List Individual :=
  List.insertionSort energyLE df

/-- Modelled from the spec: select_top_population is imported from
autotst.conformer.utilities, which is not part of src/.  Per the spec
(section 3), the EliteSlice is "the first ceil(top_percent x populationSize)
Individuals of a sorted Population"; the input DataFrame itself is not
modified. -/
def select_top_population (df : List Individual) (top_percent : ℚ) : List Individual :=
  (sortByEnergy df).take ⌈top_percent * (df.length : ℚ)⌉₊

/-- The per-torsion gene loop of ga.py lines 108-127 for one child.  index is
the running enumerate counter.  Each gene first consumes one random.random draw
for the mutation test; a mutation consumes one np.random.choice draw from the
grid, otherwise one more random.random draw decides between copying column
index + 1 of row parent_0 or of row parent_1 of the current DataFrame df. -/
def breedGenes (df : List Individual) (possible_dihedrals : List ℚ)
    (mutation_probability : ℚ) (parent_0 parent_1 : Nat) :
    List Torsion → Nat → Rng → List ℚ × Rng
  | [], _, r => ([], r)
  | _ :: rest, index, r =>
    let m := randomRandom r
    let gene :=
      if m.1 < mutation_probability then
        npRandomChoice possible_dihedrals m.2
      else
        let c := randomRandom m.2
        if (1 : ℚ) / 2 > c.1 then
          ((df.getD parent_0 ⟨0, []⟩).angles.getD index 0, c.2)
        else
          ((df.getD parent_1 ⟨0, []⟩).angles.getD index 0, c.2)
    let restOut :=
      breedGenes df possible_dihedrals mutation_probability parent_0 parent_1 rest (index + 1) gene.2
    (gene.1 :: restOut.1, restOut.2)

/-- One iteration of the `for individual in range(population_size)` body
(ga.py lines 106-140): sample two distinct parent row indices from
range(top.shape[0]), breed the gene vector, and score it with
get_potential_energy. -/
def breedChild (ase_object : AseObject) (df : List Individual) (torsions : List Torsion)
    (possible_dihedrals : List ℚ) (top_count : Nat) (mutation_probability : ℚ)
    (r : Rng) : Individual × Rng :=
  let s := randomSample2 top_count r
  let g := breedGenes df possible_dihedrals mutation_probability s.1.1 s.1.2 torsions 0 s.2
  ({ energy := ase_object.get_potential_energy g.1, angles := g.1 }, g.2)

/-- ga.py lines 104-140: breed population_size children in order from the
current DataFrame, threading the random streams child by child. -/
def breedGeneration (ase_object : AseObject) (df : List Individual) (torsions : List Torsion)
    (possible_dihedrals : List ℚ) (top_count : Nat) (mutation_probability : ℚ) :
    Nat → Rng → List Individual × Rng
  | 0, r => ([], r)
  | n + 1, r =>
    let c := breedChild ase_object df torsions possible_dihedrals top_count mutation_probability r
    let rest := breedGeneration ase_object df torsions possible_dihedrals top_count
      mutation_probability n c.2
    (c.1 :: rest.1, rest.2)

/-- Models the SelectionRecombinationOperator as the spec words it
(section 4.2), for comparison with the source-derived breedChild: the parents
are sampled from the EliteSlice itself and crossover copies genes from those
elite Individuals.  Spec and source agree on the per-gene mutation and
uniform-crossover procedure, hence the shared breedGenes; the difference under
test is which collection the genes are copied from. -/
def breedChildFromElite (elite : List Individual) (torsions : List Torsion)
    (possible_dihedrals : List ℚ) (mutation_probability : ℚ) (r : Rng) : List ℚ × Rng :=
  let s := randomSample2 elite.length r
  breedGenes elite possible_dihedrals mutation_probability s.1.1 s.1.2 torsions 0 s.2

/-- One CSV file written by the store_generations block (ga.py lines 152-169).
The tabular content is the sorted DataFrame of the generation; the column
header row (Energy, Torsion 0, ...) is a fixed presentation detail. -/
structure Snapshot where
  fileName : String
  table : List Individual
  deriving DecidableEq

/-- The per-kind CSV file name of ga.py lines 156-166.  Note the branch order
differs from the dispatch at the top of the function: Reaction is tested
first, then Molecule, then TS, with a generic fallback. -/
def generation_name (className : String) (gen_number : Nat) : String :=
  if strIncludes className "AutoTST_Reaction" then
    "rxn_ga_generation_" ++ toString gen_number ++ ".csv"
  else if strIncludes className "AutoTST_Molecule" then
    "mol_ga_generation_" ++ toString gen_number ++ ".csv"
  else if strIncludes className "AutoTST_TS" then
    "ts_ga_generation_" ++ toString gen_number ++ ".csv"
  else
    "ga_generation_" ++ toString gen_number ++ ".csv"

/-- os.path.join(store_directory, generation_name) (ga.py line 168). -/
def joinPath (dir name : String) : String := dir ++ "/" ++ name

/-- The max row of pandas describe() over a list of values. -/
def listMax : List ℚ → ℚ
  | [] => 0
  | x :: xs => xs.foldl max x

/-- The min row of pandas describe() over a list of values. -/
def listMin : List ℚ → ℚ
  | [] => 0
  | x :: xs => xs.foldl min x

/-- The square of the std row of pandas describe(): the sample variance with
ddof = 1. -/
def sampleVariance (xs : List ℚ) : ℚ :=
  let n : ℚ := (xs.length : ℚ)
  let mean := xs.sum / n
  ((xs.map (fun x => (x - mean) ^ 2)).sum) / (n - 1)

/-- The convergence test of ga.py line 178, over the Energy column of the
current elite:
  stats.loc["std"][0] / abs(stats.loc["max"][0] - stats.loc["min"][0]) < tolerance.
Exact model of the float semantics:
* fewer than 2 rows make the std entry NaN (ddof = 1), and any comparison with
  NaN is False, so the branch returns false;
* when max = min the division is 0.0 / 0.0 = NaN under numpy floats (the std
  of equal values is 0), the comparison with NaN is False, and the branch
  returns false — the source has no zero-spread guard;
* otherwise std is the square root of the sample variance, an irrational
  number, so the strict comparison std / abs(max - min) < tolerance is encoded
  by the equivalent square comparison
  sampleVariance < tolerance ^ 2 * abs(max - min) ^ 2, valid because std is
  nonnegative and abs(max - min) is positive (see sqrt_ratio_lt_iff below);
  for tolerance below or equal to 0 the original comparison is False since the
  ratio is nonnegative. -/
def cutoffReached (energies : List ℚ) (tolerance : ℚ) : Bool :=
  if energies.length < 2 then false
  else
    let mx := listMax energies
    let mn := listMin energies
    if mx - mn = 0 then false
    else if tolerance ≤ 0 then false
    else decide (sampleVariance energies < tolerance ^ 2 * |mx - mn| ^ 2)

/-- The values computed by one iteration of the while-loop body. -/
structure StepOut where
  df : List Individual
  top : List Individual
  rng : Rng
  snaps : List Snapshot
  complete : Bool

/-- The quantities of ga.py lines 51-96 that stay fixed across the whole
generational loop: the configuration arguments, the dihedral grid, the elite
and population sizes, and the resolved ase object and torsion list. -/
structure LoopCtx where
  ase_object : AseObject
  torsions : List Torsion
  possible_dihedrals : List ℚ
  top_population : Nat
  population_size : Nat
  tolerance : ℚ
  mutation_probability : ℚ
  max_generations : Nat
  store_generations : Bool
  store_directory : String
  className : String

/-- The body of one while-loop iteration (ga.py lines 101-180): increment
gen_number, breed population_size children from the current df sampling parent
indices from range(top.shape[0]), sort the new DataFrame by Energy, write the
CSV snapshot when store_generations is set, re-extract top as the first
top_population rows, and set complete when gen_number has reached
max_generations or the tolerance cutoff fires (the source sets complete in two
consecutive if statements; both are always evaluated, which is the boolean
or). -/
def gaStep (ctx : LoopCtx) (gen_number : Nat) (df top : List Individual) (r : Rng) : StepOut :=
  let gen_number := gen_number + 1
  let bred := breedGeneration ctx.ase_object df ctx.torsions ctx.possible_dihedrals top.length
    ctx.mutation_probability ctx.population_size r
  let df := sortByEnergy bred.1
  let snaps :=
    if ctx.store_generations then
      [{ fileName := joinPath ctx.store_directory (generation_name ctx.className gen_number),
         table := df }]
    else []
  let top := df.take ctx.top_population
  let complete :=
    decide (gen_number ≥ ctx.max_generations)
      || cutoffReached (top.map (fun i => i.energy)) ctx.tolerance
  { df := df, top := top, rng := bred.2, snaps := snaps, complete := complete }

/-- The observable outcome of a run: the sorted DataFrame of every generation
in order, the returned final DataFrame (ga.py line 182), and the CSV snapshots
written along the way. -/
structure GAResult where
  trace : List (List Individual)
  final : List Individual
  snapshots : List Snapshot
  deriving DecidableEq

/-- The while-loop of ga.py lines 100-180, written with structural recursion
on a fuel counter so that every run is computable by kernel reduction.  The
loop body runs at most max(1, max_generations - gen_number) times because
complete is forced once gen_number reaches max_generations, so the fuel 0
branch is unreachable whenever the fuel exceeds max_generations - gen_number;
gaLoop below always supplies sufficient fuel, and every lemma about gaLoopAux
carries that sufficiency hypothesis. -/
def gaLoopAux (ctx : LoopCtx) :
    Nat → Nat → List Individual → List Individual → Rng → GAResult
  | 0, _, df, _, _ => { trace := [], final := df, snapshots := [] }
  | fuel + 1, gen_number, df, top, r =>
    let s := gaStep ctx gen_number df top r
    if s.complete then
      { trace := [s.df], final := s.df, snapshots := s.snaps }
    else
      let rest := gaLoopAux ctx fuel (gen_number + 1) s.df s.top s.rng
      { trace := s.df :: rest.trace, final := rest.final, snapshots := s.snaps ++ rest.snapshots }

/-- The while-loop entered with the canonical (always sufficient) fuel. -/
def gaLoop (ctx : LoopCtx) (gen_number : Nat) (df top : List Individual) (r : Rng) : GAResult :=
  gaLoopAux ctx (ctx.max_generations - gen_number + 1) gen_number df top r

/-- The Python runtime errors that abort a run of ga.py (the source defines no
error type of its own and performs no configuration validation). -/
inductive RunError where
  | nameError (varName : String) (gen_number : Nat)
  | valueError (message : String) (gen_number : Nat)
  deriving DecidableEq

/-- The entry point perform_ga of ga.py lines 51-182.  Python defaults:
top_percent 0.3, tolerance 1e-5, max_generations 500, store_generations False,
store_directory ".", mutation_probability 0.2, delta 30 (max_generations is a
Python int; the model uses Nat, where any value below 1 is 0).

The error branches mirror the runtime errors that fire inside generation 1
before the pure loop can proceed:
* an empty initial DataFrame breeds an empty generation, after which the
  column assignment df.columns = columns on line 149 raises ValueError
  (length mismatch) during generation 1;
* an elite of fewer than 2 rows makes random.sample(np.arange(top.shape[0]), 2)
  on line 106 raise ValueError while breeding the first child of generation 1;
* an unrecognised class name leaves torsions unassigned, so enumerate(torsions)
  on line 108 raises NameError at the first gene of the first child of
  generation 1 (after the parent sampling of line 106 has succeeded).
Unmodelled Python failure modes, excluded by hypotheses where relevant: a
nonpositive delta gives an empty grid and np.random.choice then raises
ValueError at the first mutation draw, and an initial DataFrame with fewer
angle columns than torsions makes df.iloc raise IndexError in generation 1. -/
def perform_ga (multi_object : MultiObject) (df : List Individual)
    (top_percent tolerance : ℚ) (max_generations : Nat)
    (store_generations : Bool) (store_directory : String)
    (mutation_probability delta : ℚ) (r : Rng) : Except RunError GAResult :=
  let possible_dihedrals := np_arange 0 360 delta
  let top := select_top_population df top_percent
  let top_population := top.length
  let population_size := df.length
  match resolveObject multi_object with
  | some ot =>
    if population_size = 0 then
      .error (.valueError "Length mismatch: DataFrame columns" 1)
    else if top_population < 2 then
      .error (.valueError "Sample larger than population or is negative" 1)
    else
      .ok (gaLoop
        { ase_object := ot.1, torsions := ot.2, possible_dihedrals := possible_dihedrals,
          top_population := top_population, population_size := population_size,
          tolerance := tolerance, mutation_probability := mutation_probability,
          max_generations := max_generations, store_generations := store_generations,
          store_directory := store_directory, className := multi_object.className }
        0 df top r)
  | none =>
    if population_size = 0 then
      .error (.valueError "Length mismatch: DataFrame columns" 1)
    else if top_population < 2 then
      .error (.valueError "Sample larger than population or is negative" 1)
    else
      .error (.nameError "torsions" 1)

/-- Asserts a property of the result of a successfully completed run. -/
def OnOk (x : Except RunError GAResult) (P : GAResult → Prop) : Prop :=
  match x with
  | .ok res => P res
  | .error _ => False

/-! ### Helper lemmas about the building blocks -/

/-- The sorted DataFrame is sorted ascending by the Energy column. -/
theorem sortByEnergy_sorted (df : List Individual) : List.Sorted energyLE (sortByEnergy df) :=
  List.sorted_insertionSort energyLE df

/-- The sorted DataFrame is a permutation of its input. -/
theorem sortByEnergy_perm (df : List Individual) : List.Perm (sortByEnergy df) df :=
  List.perm_insertionSort energyLE df

/-- random.sample(np.arange(n), 2) yields two distinct indices inside [0, n)
whenever n is at least 2. -/
theorem randomSample2_spec (n : Nat) (r : Rng) (hn : 2 ≤ n) :
    (randomSample2 n r).1.1 ≠ (randomSample2 n r).1.2
    ∧ (randomSample2 n r).1.1 < n ∧ (randomSample2 n r).1.2 < n := by
  have h1 : r.pySeq r.pyPos % n < n := Nat.mod_lt _ (by omega)
  have h2 : r.pySeq (r.pyPos + 1) % (n - 1) < n - 1 := Nat.mod_lt _ (by omega)
  simp only [randomSample2, Rng.pyNext]
  refine ⟨?_, ?_, ?_⟩
  · split <;> omega
  · omega
  · split <;> omega

/-- Every element of the dihedral grid np.arange(0, 360, delta) is a natural
multiple of delta and lies strictly below 360, for any positive delta. -/
theorem np_arange_form (delta x : ℚ) (hd : 0 < delta) (hx : x ∈ np_arange 0 360 delta) :
    (∃ k : ℕ, x = (k : ℚ) * delta) ∧ x < 360 := by
  simp only [np_arange, List.mem_map, List.mem_range] at hx
  obtain ⟨k, hk, rfl⟩ := hx
  have hk2 : (k : ℚ) < (360 - 0) / delta := by rwa [Nat.lt_ceil] at hk
  constructor
  · exact ⟨k, by ring⟩
  · have h3 : (k : ℚ) * delta < (360 - 0) / delta * delta := mul_lt_mul_of_pos_right hk2 hd
    rw [div_mul_cancel₀ _ (ne_of_gt hd)] at h3
    linarith

/-- The dihedral grid is nonempty for any positive delta. -/
theorem np_arange_ne_nil (delta : ℚ) (hd : 0 < delta) : np_arange 0 360 delta ≠ [] := by
  have hpos : (0 : ℚ) < (360 - 0) / delta := by
    have h360 : (0 : ℚ) < 360 - 0 := by norm_num
    exact div_pos h360 hd
  have hlen : 0 < (np_arange 0 360 delta).length := by
    simp only [np_arange, List.length_map, List.length_range]
    exact Nat.ceil_pos.mpr hpos
  exact List.length_pos.mp hlen

/-- Reading a valid index with getD lands inside the list. -/
theorem getD_mem_of_lt (l : List ℚ) (n : Nat) (d : ℚ) (h : n < l.length) : l.getD n d ∈ l := by
  rw [List.getD_eq_getElem l d h]
  exact List.getElem_mem h

/-- A bred gene vector has one gene per torsion. -/
theorem breedGenes_length (df : List Individual) (grid : List ℚ) (mp : ℚ) (p0 p1 : Nat) :
    ∀ (tors : List Torsion) (index : Nat) (r : Rng),
      (breedGenes df grid mp p0 p1 tors index r).1.length = tors.length := by
  intro tors
  induction tors with
  | nil => intro index r; rfl
  | cons t rest ih =>
    intro index r
    simp [breedGenes, ih]

/-- Gene provenance in the source breeding loop: every gene either comes from
the mutation grid or is a copy of the gene at the same column of row parent_0
or of row parent_1 of the breeding DataFrame. -/
theorem breedGenes_provenance (df : List Individual) (grid : List ℚ) (mp : ℚ) (p0 p1 : Nat)
    (hg : grid ≠ []) :
    ∀ (tors : List Torsion) (index : Nat) (r : Rng) (i : Nat), i < tors.length →
      (breedGenes df grid mp p0 p1 tors index r).1.getD i 0 ∈ grid
      ∨ (breedGenes df grid mp p0 p1 tors index r).1.getD i 0
          = (df.getD p0 ⟨0, []⟩).angles.getD (index + i) 0
      ∨ (breedGenes df grid mp p0 p1 tors index r).1.getD i 0
          = (df.getD p1 ⟨0, []⟩).angles.getD (index + i) 0 := by
  intro tors
  induction tors with
  | nil => intro index r i hi; simp at hi
  | cons t rest ih =>
    intro index r i hi
    cases i with
    | zero =>
      simp only [breedGenes, List.getD_cons_zero, Nat.add_zero]
      by_cases hm : (randomRandom r).1 < mp
      · rw [if_pos hm]
        left
        simp only [npRandomChoice]
        exact getD_mem_of_lt _ _ _ (Nat.mod_lt _ (List.length_pos.mpr hg))
      · rw [if_neg hm]
        split
        · right; left; rfl
        · right; right; rfl
    | succ j =>
      simp only [breedGenes, List.getD_cons_succ]
      rw [show index + (j + 1) = (index + 1) + j by omega]
      exact ih (index + 1) _ j (by simpa using hi)

/-- The bred gene vector only depends on the breeding DataFrame through its
rows parent_0 and parent_1. -/
theorem breedGenes_rows_eq (df1 df2 : List Individual) (grid : List ℚ) (mp : ℚ) (p0 p1 : Nat)
    (h0 : df1.getD p0 ⟨0, []⟩ = df2.getD p0 ⟨0, []⟩)
    (h1 : df1.getD p1 ⟨0, []⟩ = df2.getD p1 ⟨0, []⟩) :
    ∀ (tors : List Torsion) (index : Nat) (r : Rng),
      breedGenes df1 grid mp p0 p1 tors index r = breedGenes df2 grid mp p0 p1 tors index r := by
  intro tors
  induction tors with
  | nil => intro index r; rfl
  | cons t rest ih =>
    intro index r
    simp only [breedGenes, h0, h1, ih]

/-- Reading inside the taken prefix agrees with reading the full list. -/
theorem getD_take_of_lt (l : List Individual) (n i : Nat) (d : Individual) (h : i < n) :
    (l.take n).getD i d = l.getD i d := by
  induction l generalizing n i with
  | nil => simp
  | cons x xs ih =>
    cases n with
    | zero => omega
    | succ m =>
      cases i with
      | zero => simp
      | succ j => simpa using ih m j (by omega)

/-- One generation breeds exactly population_size children. -/
theorem breedGeneration_length (ase : AseObject) (df : List Individual) (tors : List Torsion)
    (grid : List ℚ) (tc : Nat) (mp : ℚ) :
    ∀ (n : Nat) (r : Rng), (breedGeneration ase df tors grid tc mp n r).1.length = n := by
  intro n
  induction n with
  | zero => intro r; rfl
  | succ k ih => intro r; simp [breedGeneration, ih]

/-- Every bred child has one angle per torsion. -/
theorem breedGeneration_angles (ase : AseObject) (df : List Individual) (tors : List Torsion)
    (grid : List ℚ) (tc : Nat) (mp : ℚ) :
    ∀ (n : Nat) (r : Rng) (ind : Individual),
      ind ∈ (breedGeneration ase df tors grid tc mp n r).1 →
      ind.angles.length = tors.length := by
  intro n
  induction n with
  | zero => intro r ind h; simp [breedGeneration] at h
  | succ k ih =>
    intro r ind h
    simp only [breedGeneration, List.mem_cons] at h
    rcases h with h | h
    · subst h
      simp [breedChild, breedGenes_length]
    · exact ih _ _ h

/-- Justifies the square-comparison encoding inside cutoffReached: over the
reals, for a variance v, a positive spread s and a positive tolerance t, the
comparison sqrt(v) / s < t holds exactly when v < t ^ 2 * s ^ 2. -/
theorem sqrt_ratio_lt_iff (v s t : ℝ) (hs : 0 < s) (ht : 0 < t) :
    Real.sqrt v / s < t ↔ v < t ^ 2 * s ^ 2 := by
  rw [div_lt_iff₀ hs, Real.sqrt_lt' (mul_pos ht hs), mul_pow]

/-! ### Lemmas about one loop iteration and the loop -/

/-- The new DataFrame of an iteration is the sorted list of bred children. -/
theorem gaStep_df_eq (ctx : LoopCtx) (gen_number : Nat) (df top : List Individual) (r : Rng) :
    (gaStep ctx gen_number df top r).df
      = sortByEnergy (breedGeneration ctx.ase_object df ctx.torsions ctx.possible_dihedrals
          top.length ctx.mutation_probability ctx.population_size r).1 := rfl

/-- The new elite of an iteration is the taken prefix of the new DataFrame. -/
theorem gaStep_top_eq (ctx : LoopCtx) (gen_number : Nat) (df top : List Individual) (r : Rng) :
    (gaStep ctx gen_number df top r).top
      = (gaStep ctx gen_number df top r).df.take ctx.top_population := rfl

/-- The completion flag of an iteration. -/
theorem gaStep_complete_eq (ctx : LoopCtx) (gen_number : Nat) (df top : List Individual)
    (r : Rng) :
    (gaStep ctx gen_number df top r).complete
      = (decide (gen_number + 1 ≥ ctx.max_generations)
          || cutoffReached ((gaStep ctx gen_number df top r).top.map (fun i => i.energy))
              ctx.tolerance) := rfl

/-- An iteration that does not complete has not yet reached the generation
cap. -/
theorem gaStep_not_complete (ctx : LoopCtx) (gen_number : Nat) (df top : List Individual)
    (r : Rng) (h : (gaStep ctx gen_number df top r).complete = false) :
    gen_number + 1 < ctx.max_generations := by
  rw [gaStep_complete_eq] at h
  simp only [Bool.or_eq_false_iff, decide_eq_false_iff_not, not_le] at h
  omega

/-- The sorted DataFrame of an iteration is sorted ascending by energy. -/
theorem gaStep_df_sorted (ctx : LoopCtx) (gen_number : Nat) (df top : List Individual)
    (r : Rng) : List.Sorted energyLE (gaStep ctx gen_number df top r).df := by
  rw [gaStep_df_eq]
  exact sortByEnergy_sorted _

/-- The DataFrame of an iteration has population_size rows. -/
theorem gaStep_df_length (ctx : LoopCtx) (gen_number : Nat) (df top : List Individual)
    (r : Rng) : (gaStep ctx gen_number df top r).df.length = ctx.population_size := by
  rw [gaStep_df_eq, (sortByEnergy_perm _).length_eq, breedGeneration_length]

/-- Every row of the DataFrame of an iteration has one angle per torsion. -/
theorem gaStep_df_angles (ctx : LoopCtx) (gen_number : Nat) (df top : List Individual)
    (r : Rng) (ind : Individual) (h : ind ∈ (gaStep ctx gen_number df top r).df) :
    ind.angles.length = ctx.torsions.length := by
  rw [gaStep_df_eq] at h
  exact breedGeneration_angles _ _ _ _ _ _ _ _ _ ((sortByEnergy_perm _).mem_iff.mp h)

/-- Unfolding the loop at a completing iteration. -/
theorem gaLoopAux_succ_complete (ctx : LoopCtx) (k gen_number : Nat)
    (df top : List Individual) (r : Rng)
    (hc : (gaStep ctx gen_number df top r).complete = true) :
    gaLoopAux ctx (k + 1) gen_number df top r
      = { trace := [(gaStep ctx gen_number df top r).df],
          final := (gaStep ctx gen_number df top r).df,
          snapshots := (gaStep ctx gen_number df top r).snaps } := by
  simp [gaLoopAux, hc]

/-- Unfolding the loop at a non-completing iteration. -/
theorem gaLoopAux_succ_not_complete (ctx : LoopCtx) (k gen_number : Nat)
    (df top : List Individual) (r : Rng)
    (hc : (gaStep ctx gen_number df top r).complete = false) :
    gaLoopAux ctx (k + 1) gen_number df top r
      = { trace := (gaStep ctx gen_number df top r).df
            :: (gaLoopAux ctx k (gen_number + 1) (gaStep ctx gen_number df top r).df
                (gaStep ctx gen_number df top r).top (gaStep ctx gen_number df top r).rng).trace,
          final := (gaLoopAux ctx k (gen_number + 1) (gaStep ctx gen_number df top r).df
              (gaStep ctx gen_number df top r).top (gaStep ctx gen_number df top r).rng).final,
          snapshots := (gaStep ctx gen_number df top r).snaps
            ++ (gaLoopAux ctx k (gen_number + 1) (gaStep ctx gen_number df top r).df
                (gaStep ctx gen_number df top r).top (gaStep ctx gen_number df top r).rng).snapshots } := by
  simp [gaLoopAux, hc]

/-- The main loop invariant, proved for any sufficient fuel: the trace is
nonempty, its last element is the returned final DataFrame, the final
DataFrame is sorted, every stored generation is sorted ascending by energy,
has exactly population_size rows, every row has one angle per torsion, and the
number of generations executed from the current counter never exceeds the
remaining budget max_generations - gen_number. -/
theorem gaLoopAux_inv (ctx : LoopCtx) :
    ∀ (fuel gen_number : Nat) (df top : List Individual) (r : Rng),
      ctx.max_generations - gen_number < fuel →
      (gaLoopAux ctx fuel gen_number df top r).trace ≠ []
      ∧ (gaLoopAux ctx fuel gen_number df top r).trace.getLast?
          = some (gaLoopAux ctx fuel gen_number df top r).final
      ∧ List.Sorted energyLE (gaLoopAux ctx fuel gen_number df top r).final
      ∧ (∀ p ∈ (gaLoopAux ctx fuel gen_number df top r).trace,
          List.Sorted energyLE p ∧ p.length = ctx.population_size
          ∧ ∀ ind ∈ p, ind.angles.length = ctx.torsions.length)
      ∧ (gen_number < ctx.max_generations →
          (gaLoopAux ctx fuel gen_number df top r).trace.length
            ≤ ctx.max_generations - gen_number) := by
  intro fuel
  induction fuel with
  | zero => intro gen df top r h; omega
  | succ k ih =>
    intro gen df top r h
    by_cases hc : (gaStep ctx gen df top r).complete
    · rw [gaLoopAux_succ_complete ctx k gen df top r hc]
      refine ⟨by simp, by simp, gaStep_df_sorted ctx gen df top r, ?_, ?_⟩
      · intro p hp
        simp only [List.mem_singleton] at hp
        subst hp
        exact ⟨gaStep_df_sorted ctx gen df top r, gaStep_df_length ctx gen df top r,
          fun ind hind => gaStep_df_angles ctx gen df top r ind hind⟩
      · intro hlt
        simp only [List.length_singleton]
        omega
    · have hc2 : (gaStep ctx gen df top r).complete = false := by
        simpa using hc
      have hcap := gaStep_not_complete ctx gen df top r hc2
      have hrest := ih (gen + 1) (gaStep ctx gen df top r).df (gaStep ctx gen df top r).top
        (gaStep ctx gen df top r).rng (by omega)
      rw [gaLoopAux_succ_not_complete ctx k gen df top r hc2]
      obtain ⟨hne, hlast, hfin, hall, hlen⟩ := hrest
      refine ⟨by simp, ?_, hfin, ?_, ?_⟩
      · cases htr : (gaLoopAux ctx k (gen + 1) (gaStep ctx gen df top r).df
            (gaStep ctx gen df top r).top (gaStep ctx gen df top r).rng).trace with
        | nil => exact absurd htr hne
        | cons x xs =>
          rw [htr] at hlast
          simpa [List.getLast?_cons_cons] using hlast
      · intro p hp
        simp only [List.mem_cons] at hp
        rcases hp with hp | hp
        · subst hp
          exact ⟨gaStep_df_sorted ctx gen df top r, gaStep_df_length ctx gen df top r,
            fun ind hind => gaStep_df_angles ctx gen df top r ind hind⟩
        · exact hall p hp
      · intro _
        simp only [List.length_cons]
        have := hlen (by omega)
        omega

/-- The loop computes the same sequence of generations and the same final
DataFrame whether or not snapshots are stored; only the snapshot list
differs. -/
theorem gaLoopAux_store_frame (ctx : LoopCtx) :
    ∀ (fuel gen_number : Nat) (df top : List Individual) (r : Rng),
      (gaLoopAux { ctx with store_generations := true } fuel gen_number df top r).trace
          = (gaLoopAux { ctx with store_generations := false } fuel gen_number df top r).trace
      ∧ (gaLoopAux { ctx with store_generations := true } fuel gen_number df top r).final
          = (gaLoopAux { ctx with store_generations := false } fuel gen_number df top r).final := by
  intro fuel
  induction fuel with
  | zero => intro gen df top r; exact ⟨rfl, rfl⟩
  | succ k ih =>
    intro gen df top r
    have hdf : (gaStep { ctx with store_generations := true } gen df top r).df
        = (gaStep { ctx with store_generations := false } gen df top r).df := rfl
    have htop : (gaStep { ctx with store_generations := true } gen df top r).top
        = (gaStep { ctx with store_generations := false } gen df top r).top := rfl
    have hrng : (gaStep { ctx with store_generations := true } gen df top r).rng
        = (gaStep { ctx with store_generations := false } gen df top r).rng := rfl
    have hcomp : (gaStep { ctx with store_generations := true } gen df top r).complete
        = (gaStep { ctx with store_generations := false } gen df top r).complete := rfl
    by_cases hc : (gaStep { ctx with store_generations := false } gen df top r).complete
    · rw [gaLoopAux_succ_complete _ k gen df top r (hcomp.trans hc),
        gaLoopAux_succ_complete _ k gen df top r hc]
      exact ⟨by rw [hdf], hdf⟩
    · have hc2 : (gaStep { ctx with store_generations := false } gen df top r).complete
          = false := by simpa using hc
      rw [gaLoopAux_succ_not_complete _ k gen df top r (hcomp.trans hc2),
        gaLoopAux_succ_not_complete _ k gen df top r hc2]
      have := ih (gen + 1) (gaStep { ctx with store_generations := false } gen df top r).df
        (gaStep { ctx with store_generations := false } gen df top r).top
        (gaStep { ctx with store_generations := false } gen df top r).rng
      rw [hdf, htop, hrng]
      exact ⟨by rw [this.1], this.2⟩

/-- The loop context a successful perform_ga call passes to the loop. -/
def mkCtx (m : MultiObject) (pop : List Individual) (tp tol : ℚ) (mg : Nat)
    (store : Bool) (sd : String) (mp delta : ℚ) (ot : AseObject × List Torsion) : LoopCtx :=
  { ase_object := ot.1, torsions := ot.2, possible_dihedrals := np_arange 0 360 delta,
    top_population := (select_top_population pop tp).length, population_size := pop.length,
    tolerance := tol, mutation_probability := mp, max_generations := mg,
    store_generations := store, store_directory := sd, className := m.className }

/-- A run with a recognised kind, a nonempty population and an elite of at
least 2 rows reaches the loop and returns its result. -/
theorem perform_ga_ok (m : MultiObject) (pop : List Individual) (tp tol : ℚ) (mg : Nat)
    (store : Bool) (sd : String) (mp delta : ℚ) (r : Rng) (ot : AseObject × List Torsion)
    (hot : resolveObject m = some ot) (hpop : 1 ≤ pop.length)
    (helite : 2 ≤ (select_top_population pop tp).length) :
    perform_ga m pop tp tol mg store sd mp delta r
      = .ok (gaLoop (mkCtx m pop tp tol mg store sd mp delta ot) 0 pop
          (select_top_population pop tp) r) := by
  unfold perform_ga mkCtx
  simp only [hot]
  rw [if_neg (by omega), if_neg (by omega)]

/-- The loop invariant read off at the canonical entry point. -/
theorem gaLoop_inv (ctx : LoopCtx) (df top : List Individual) (r : Rng) :
    (gaLoop ctx 0 df top r).trace ≠ []
    ∧ (gaLoop ctx 0 df top r).trace.getLast? = some (gaLoop ctx 0 df top r).final
    ∧ List.Sorted energyLE (gaLoop ctx 0 df top r).final
    ∧ (∀ p ∈ (gaLoop ctx 0 df top r).trace,
        List.Sorted energyLE p ∧ p.length = ctx.population_size
        ∧ ∀ ind ∈ p, ind.angles.length = ctx.torsions.length)
    ∧ (0 < ctx.max_generations →
        (gaLoop ctx 0 df top r).trace.length ≤ ctx.max_generations) := by
  have h := gaLoopAux_inv ctx (ctx.max_generations - 0 + 1) 0 df top r (by omega)
  simpa [gaLoop] using h

/-! ### Concrete objects used by witnesses and counterexamples -/

/-- A concrete evaluator: the energy is the sum of the angles. -/
def sumAse : AseObject := { get_potential_energy := fun xs => xs.sum }

/-- A concrete torsion specification. -/
def torsion0 : Torsion := { indices := (0, 1, 2, 3), right_mask := [true, false] }

/-- A concrete molecule-kind multi object with one torsion. -/
def molObj : MultiObject :=
  { className := "AutoTST_Molecule", ase_molecule := sumAse, torsions := [torsion0],
    ts := { ase_ts := sumAse, torsions := [] }, ase_ts := sumAse }

/-- A deterministic random source whose raw draws are all 0. -/
def zeroRng : Rng := { pySeq := fun _ => 0, pyPos := 0, npSeq := fun _ => 0, npPos := 0 }

/-- A tiny already-evaluated initial population. -/
def popA : List Individual :=
  [{ energy := 5, angles := [0] }, { energy := 7, angles := [30] }]

/-! ### Claim theorems -/

/-- The supporting run for C1: a constant evaluator, so every generation has
all-equal energies and the elite spread is zero on every generation. -/
def constAse : AseObject := { get_potential_energy := fun _ => 5 }

/-- A molecule-kind object whose evaluator is constant. -/
def constObj : MultiObject :=
  { className := "AutoTST_Molecule", ase_molecule := constAse, torsions := [torsion0],
    ts := { ase_ts := constAse, torsions := [] }, ase_ts := constAse }

/-- An initial population whose individuals already all have the same energy. -/
def constPop : List Individual :=
  [{ energy := 5, angles := [0] }, { energy := 5, angles := [30] }]

/-- The number of generations the constant-energy run executes (max
generations 2, tolerance 1e-5, the whole population as elite). -/
def zeroSpreadGenerations : Option Nat :=
  match perform_ga constObj constPop 1 (1 / 100000) 2 false "." (1 / 5) 30 zeroRng with
  | .ok res => some res.trace.length
  | .error _ => none

/-- C1: the claim says a zero-spread elite slice makes the convergence ratio 0
and the run converge on that generation.  The code divides the elite std by
abs(max - min) with no guard; at zero spread this is 0.0 / 0.0 = NaN under
numpy floats, the comparison NaN < tolerance is False, and the generation is
NOT treated as converged (with plain Python floats the division would raise
ZeroDivisionError).  Concretely: the cutoff test on the all-equal elite
energies [5, 5] yields false, and a run in which every generation has zero
spread still runs until the generation cap of 2 instead of converging at
generation 1. -/
theorem zero_spread_cutoff_not_converged :
    cutoffReached [5, 5] (1 / 100000) = false ∧ zeroSpreadGenerations = some 2 := by
  constructor
  · with_unfolding_all decide
  · with_unfolding_all decide

/-- C2: with a recognised kind, a nonempty population, an elite of at least 2
rows and max_generations at least 1, the loop executes at most max_generations
generations, and with max_generations = 1 it executes exactly one generation,
for every tolerance value. -/
theorem loop_terminates_within_max_generations
    (m : MultiObject) (pop : List Individual) (tp tol : ℚ) (mg : Nat) (store : Bool)
    (sd : String) (mp delta : ℚ) (r : Rng)
    (hsome : (resolveObject m).isSome = true)
    (hpop : 1 ≤ pop.length)
    (helite : 2 ≤ (select_top_population pop tp).length)
    (hmg : 1 ≤ mg) :
    OnOk (perform_ga m pop tp tol mg store sd mp delta r) (fun res =>
      res.trace.length ≤ mg ∧ (mg = 1 → res.trace.length = 1)) := by
  obtain ⟨ot, hot⟩ := Option.isSome_iff_exists.mp hsome
  rw [perform_ga_ok m pop tp tol mg store sd mp delta r ot hot hpop helite]
  simp only [OnOk]
  obtain ⟨hne, -, -, -, hbound⟩ :=
    gaLoop_inv (mkCtx m pop tp tol mg store sd mp delta ot) pop (select_top_population pop tp) r
  have hmx : (mkCtx m pop tp tol mg store sd mp delta ot).max_generations = mg := rfl
  rw [hmx] at hbound
  have hb := hbound (by omega)
  have hpos := List.length_pos.mpr hne
  exact ⟨hb, fun h1 => by omega⟩

/-- Witness for C2 at a concrete input: max_generations = 1, a molecule-kind
object, a population of 2 and the whole population as elite. -/
theorem loop_terminates_within_max_generations_witness :
    OnOk (perform_ga molObj popA 1 (1 / 100000) 1 false "." (1 / 5) 30 zeroRng) (fun res =>
      res.trace.length ≤ 1 ∧ (1 = 1 → res.trace.length = 1)) :=
  loop_terminates_within_max_generations molObj popA 1 (1 / 100000) 1 false "." (1 / 5) 30
    zeroRng (by with_unfolding_all decide) (by with_unfolding_all decide) (by with_unfolding_all decide) (by with_unfolding_all decide)

/-- The counterexample run for C3: max_generations = 0 (the Nat model of any
Python value below 1), every other parameter valid. -/
def invalidCfgGenerations : Option Nat :=
  match perform_ga molObj popA 1 (1 / 100000) 0 false "." (1 / 5) 30 zeroRng with
  | .ok res => some res.trace.length
  | .error _ => none

/-- C3 (counterexample): with the invalid configuration max_generations below
1 the claim demands a ConfigurationError before any generation executes; the
run instead executes one full generation (one bred, evaluated, sorted
population in the trace) and returns it with no error of any kind. -/
theorem no_configuration_error_counterexample : invalidCfgGenerations = some 1 := by with_unfolding_all decide

/-- C3 (amended): ga.py performs no configuration validation and defines no
ConfigurationError.  In particular, with max_generations below 1 (and a
recognised kind, a nonempty population and an elite of at least 2 rows) the
run executes exactly one full generation — bred, evaluated and sorted — and
returns its population normally, raising nothing at all. -/
theorem invalid_max_generations_still_runs_one_generation
    (m : MultiObject) (pop : List Individual) (tp tol : ℚ) (store : Bool) (sd : String)
    (mp delta : ℚ) (r : Rng)
    (hsome : (resolveObject m).isSome = true)
    (hpop : 1 ≤ pop.length)
    (helite : 2 ≤ (select_top_population pop tp).length) :
    OnOk (perform_ga m pop tp tol 0 store sd mp delta r)
      (fun res => res.trace.length = 1) := by
  obtain ⟨ot, hot⟩ := Option.isSome_iff_exists.mp hsome
  rw [perform_ga_ok m pop tp tol 0 store sd mp delta r ot hot hpop helite]
  simp only [OnOk]
  have hc : (gaStep (mkCtx m pop tp tol 0 store sd mp delta ot) 0 pop
      (select_top_population pop tp) r).complete = true := by
    rw [gaStep_complete_eq]
    simp [mkCtx]
  unfold gaLoop
  rw [gaLoopAux_succ_complete _ _ _ _ _ _ hc]
  rfl

/-- Witness for the amended C3 at a concrete input. -/
theorem invalid_max_generations_still_runs_one_generation_witness :
    OnOk (perform_ga molObj popA 1 (1 / 100000) 0 false "." (1 / 5) 30 zeroRng)
      (fun res => res.trace.length = 1) :=
  invalid_max_generations_still_runs_one_generation molObj popA 1 (1 / 100000) false "."
    (1 / 5) 30 zeroRng (by with_unfolding_all decide) (by with_unfolding_all decide) (by with_unfolding_all decide)

/-- C4: in every successful run, every stored generation (each element of the
trace, from which the elite slice is extracted as its take-prefix) is sorted
ascending by energy, the returned DataFrame is the last stored generation, it
is sorted ascending by energy, and its head has the lowest energy. -/
theorem population_sorted_invariant
    (m : MultiObject) (pop : List Individual) (tp tol : ℚ) (mg : Nat) (store : Bool)
    (sd : String) (mp delta : ℚ) (r : Rng)
    (hsome : (resolveObject m).isSome = true)
    (hpop : 1 ≤ pop.length)
    (helite : 2 ≤ (select_top_population pop tp).length) :
    OnOk (perform_ga m pop tp tol mg store sd mp delta r) (fun res =>
      (∀ p ∈ res.trace, List.Sorted energyLE p)
      ∧ res.trace.getLast? = some res.final
      ∧ List.Sorted energyLE res.final
      ∧ ∀ a b, res.final.head? = some a → b ∈ res.final → a.energy ≤ b.energy) := by
  obtain ⟨ot, hot⟩ := Option.isSome_iff_exists.mp hsome
  rw [perform_ga_ok m pop tp tol mg store sd mp delta r ot hot hpop helite]
  simp only [OnOk]
  obtain ⟨-, hlast, hfin, hall, -⟩ :=
    gaLoop_inv (mkCtx m pop tp tol mg store sd mp delta ot) pop (select_top_population pop tp) r
  refine ⟨fun p hp => (hall p hp).1, hlast, hfin, ?_⟩
  intro a b ha hb
  cases hfl : (gaLoop (mkCtx m pop tp tol mg store sd mp delta ot) 0 pop
      (select_top_population pop tp) r).final with
  | nil => rw [hfl] at ha; simp at ha
  | cons x xs =>
    rw [hfl] at ha hb hfin
    simp only [List.head?_cons, Option.some.injEq] at ha
    subst ha
    rcases List.mem_cons.mp hb with hb | hb
    · subst hb; exact le_refl _
    · exact (List.sorted_cons.mp hfin).1 b hb

/-- Witness for C4 at a concrete input. -/
theorem population_sorted_invariant_witness :
    OnOk (perform_ga molObj popA 1 (1 / 100000) 1 false "." (1 / 5) 30 zeroRng) (fun res =>
      (∀ p ∈ res.trace, List.Sorted energyLE p)
      ∧ res.trace.getLast? = some res.final
      ∧ List.Sorted energyLE res.final
      ∧ ∀ a b, res.final.head? = some a → b ∈ res.final → a.energy ≤ b.energy) :=
  population_sorted_invariant molObj popA 1 (1 / 100000) 1 false "." (1 / 5) 30 zeroRng
    (by with_unfolding_all decide) (by with_unfolding_all decide) (by with_unfolding_all decide)

/-- C5: in every successful run, every stored generation has exactly
population_size rows (the row count of the initial DataFrame) and every bred
Individual has exactly one angle per torsion specification. -/
theorem population_size_and_genome_length_invariant
    (m : MultiObject) (pop : List Individual) (tp tol : ℚ) (mg : Nat) (store : Bool)
    (sd : String) (mp delta : ℚ) (r : Rng) (ase : AseObject) (tors : List Torsion)
    (hot : resolveObject m = some (ase, tors))
    (hpop : 1 ≤ pop.length)
    (helite : 2 ≤ (select_top_population pop tp).length) :
    OnOk (perform_ga m pop tp tol mg store sd mp delta r) (fun res =>
      ∀ p ∈ res.trace, p.length = pop.length
        ∧ ∀ ind ∈ p, ind.angles.length = tors.length) := by
  rw [perform_ga_ok m pop tp tol mg store sd mp delta r (ase, tors) hot hpop helite]
  simp only [OnOk]
  obtain ⟨-, -, -, hall, -⟩ :=
    gaLoop_inv (mkCtx m pop tp tol mg store sd mp delta (ase, tors)) pop
      (select_top_population pop tp) r
  exact fun p hp => ⟨(hall p hp).2.1, (hall p hp).2.2⟩

/-- Witness for C5 at a concrete input. -/
theorem population_size_and_genome_length_invariant_witness :
    OnOk (perform_ga molObj popA 1 (1 / 100000) 1 false "." (1 / 5) 30 zeroRng) (fun res =>
      ∀ p ∈ res.trace, p.length = popA.length
        ∧ ∀ ind ∈ p, ind.angles.length = [torsion0].length) :=
  population_size_and_genome_length_invariant molObj popA 1 (1 / 100000) 1 false "." (1 / 5)
    30 zeroRng sumAse [torsion0] (by with_unfolding_all rfl) (by with_unfolding_all decide)
    (by with_unfolding_all decide)

/-- The counterexample population for C6: the initial DataFrame is NOT sorted
by energy, so its first rows (the rows generation 1 copies genes from, ga.py
line 114) are not the elite members. -/
def cexPopSix : List Individual :=
  [ { energy := 10, angles := [999] }, { energy := 8, angles := [888] },
    { energy := 0, angles := [111] }, { energy := 1, angles := [222] } ]

/-- One generation bred from cexPopSix with mutation off (probability 0),
top_percent 1/2 (elite of 2) and delta 30. -/
def cexRunSix : Except RunError GAResult :=
  perform_ga molObj cexPopSix (1 / 2) (1 / 100000) 1 false "." 0 30 zeroRng

/-- Checks, on the concrete run cexRunSix, the property C6 claims: every angle
of every Individual of the returned Population is either a value of the
mutation grid np.arange(0, 360, 30) or a gene inherited from a parent.  The
parents are sampled from the EliteSlice, so a gene inherited from a parent
must occur among the elite genes at that position; the check below is even
weaker (it accepts a gene of any elite member), so its failure refutes the
claim a fortiori. -/
def claimSixHolds : Bool :=
  match cexRunSix with
  | .ok res =>
    res.final.all (fun ind =>
      decide (ind.angles.getD 0 0 ∈ np_arange 0 360 30)
      || (select_top_population cexPopSix (1 / 2)).any
          (fun p => decide (p.angles.getD 0 0 = ind.angles.getD 0 0)))
  | .error _ => true

/-- C6 (counterexample): in generation 1 the crossover of ga.py line 114 reads
df.iloc[parent, index + 1] where df is still the raw initial DataFrame, while
the sampled parent indices refer to the elite; with the unsorted initial
population cexPopSix every bred gene is 999 — the first angle of the
highest-energy row — which is neither a grid value nor a gene of any elite
member, so crossover does invent values not owned by any parent. -/
theorem crossover_gene_not_from_elite_counterexample : claimSixHolds = false := by
  with_unfolding_all decide

/-- C6 (amended): every mutated gene is a grid value (a natural multiple of
delta strictly below 360), and every crossover gene is copied from row
parent_0 or row parent_1 of the breeding DataFrame at the same genome
position.  Those rows are the sampled elite parents from generation 2 onward
(when the breeding DataFrame is the previous sorted generation and the elite
is its prefix); in generation 1 they are rows of the raw initial DataFrame at
the sampled indices, which coincide with the elite parents only when the
initial population is already sorted ascending by energy. -/
theorem gene_from_grid_or_dataframe_rows
    (ase : AseObject) (df : List Individual) (tors : List Torsion) (delta mp : ℚ)
    (top_count : Nat) (r : Rng) (i : Nat) (hdelta : 0 < delta) (hi : i < tors.length) :
    ((∃ k : ℕ,
        (breedChild ase df tors (np_arange 0 360 delta) top_count mp r).1.angles.getD i 0
          = (k : ℚ) * delta)
      ∧ (breedChild ase df tors (np_arange 0 360 delta) top_count mp r).1.angles.getD i 0
          < 360)
    ∨ (breedChild ase df tors (np_arange 0 360 delta) top_count mp r).1.angles.getD i 0
        = (df.getD (randomSample2 top_count r).1.1 ⟨0, []⟩).angles.getD i 0
    ∨ (breedChild ase df tors (np_arange 0 360 delta) top_count mp r).1.angles.getD i 0
        = (df.getD (randomSample2 top_count r).1.2 ⟨0, []⟩).angles.getD i 0 := by
  have hang : (breedChild ase df tors (np_arange 0 360 delta) top_count mp r).1.angles
      = (breedGenes df (np_arange 0 360 delta) mp (randomSample2 top_count r).1.1
          (randomSample2 top_count r).1.2 tors 0 (randomSample2 top_count r).2).1 := rfl
  rw [hang]
  have hprov := breedGenes_provenance df (np_arange 0 360 delta) mp
    (randomSample2 top_count r).1.1 (randomSample2 top_count r).1.2
    (np_arange_ne_nil delta hdelta) tors 0 (randomSample2 top_count r).2 i hi
  simp only [Nat.zero_add] at hprov
  rcases hprov with h | h | h
  · exact Or.inl ⟨(np_arange_form delta _ hdelta h).1, (np_arange_form delta _ hdelta h).2⟩
  · exact Or.inr (Or.inl h)
  · exact Or.inr (Or.inr h)

/-- Witness for the amended C6 at a concrete input. -/
theorem gene_from_grid_or_dataframe_rows_witness :
    ((∃ k : ℕ,
        (breedChild sumAse popA [torsion0] (np_arange 0 360 30) 2 (1 / 5) zeroRng).1.angles.getD 0 0
          = (k : ℚ) * 30)
      ∧ (breedChild sumAse popA [torsion0] (np_arange 0 360 30) 2 (1 / 5) zeroRng).1.angles.getD 0 0
          < 360)
    ∨ (breedChild sumAse popA [torsion0] (np_arange 0 360 30) 2 (1 / 5) zeroRng).1.angles.getD 0 0
        = (popA.getD (randomSample2 2 zeroRng).1.1 ⟨0, []⟩).angles.getD 0 0
    ∨ (breedChild sumAse popA [torsion0] (np_arange 0 360 30) 2 (1 / 5) zeroRng).1.angles.getD 0 0
        = (popA.getD (randomSample2 2 zeroRng).1.2 ⟨0, []⟩).angles.getD 0 0 :=
  gene_from_grid_or_dataframe_rows sumAse popA [torsion0] 30 (1 / 5) 2 zeroRng 0
    (by norm_num) (by decide)

/-- The counterexample population for C7, unsorted, with an elite of 3. -/
def cexPopSeven : List Individual :=
  [ { energy := 20, angles := [777] }, { energy := 21, angles := [666] },
    { energy := 0, angles := [100] }, { energy := 1, angles := [200] },
    { energy := 2, angles := [300] }, { energy := 3, angles := [400] } ]

/-- One generation bred from cexPopSeven with mutation off, top_percent 1/2
(elite of 3) and delta 30. -/
def cexRunSeven : Except RunError GAResult :=
  perform_ga molObj cexPopSeven (1 / 2) (1 / 100000) 1 false "." 0 30 zeroRng

/-- Checks, on the concrete run cexRunSeven, the property C7 claims: with
mutation probability 0 every gene of every bred Individual is copied from
parent_0 or parent_1, two distinct members of the EliteSlice; hence every
final angle must occur among the elite angles at that position (the grid is
also accepted below for robustness, making the check weaker than the claim). -/
def claimSevenHolds : Bool :=
  match cexRunSeven with
  | .ok res =>
    res.final.all (fun ind =>
      decide (ind.angles.getD 0 0 ∈ np_arange 0 360 30)
      || (select_top_population cexPopSeven (1 / 2)).any
          (fun p => decide (p.angles.getD 0 0 = ind.angles.getD 0 0)))
  | .error _ => true

/-- C7 (counterexample): in generation 1 with the unsorted initial population
cexPopSeven, every bred gene is 777 — the first angle of a non-elite row —
although the claim says crossover copies the gene from the sampled elite
parent at that position (the elite angles are 100, 200 and 300). -/
theorem breeding_not_from_elite_counterexample : claimSevenHolds = false := by
  with_unfolding_all decide

/-- C7 (amended): whenever the elite is the take-prefix of the breeding
DataFrame — true for every generation after the first, and for the first when
the initial population is already sorted — breedChild samples two distinct
parent indices inside [0, eliteSize) and produces exactly the gene vector of
the spec operator breedChildFromElite run on that elite: per gene, a mutation
draws a grid value, otherwise a fair coin copies the gene of elite parent_0 or
of elite parent_1 at that position. -/
theorem breeding_refines_elite_operator
    (ase : AseObject) (df : List Individual) (tors : List Torsion) (grid : List ℚ)
    (mp : ℚ) (top_count : Nat) (r : Rng)
    (h2 : 2 ≤ top_count) (hlen : top_count ≤ df.length) :
    (breedChild ase df tors grid top_count mp r).1.angles
        = (breedChildFromElite (df.take top_count) tors grid mp r).1
    ∧ (randomSample2 top_count r).1.1 ≠ (randomSample2 top_count r).1.2
    ∧ (randomSample2 top_count r).1.1 < top_count
    ∧ (randomSample2 top_count r).1.2 < top_count := by
  obtain ⟨hne, ha, hb⟩ := randomSample2_spec top_count r h2
  have hlen2 : (df.take top_count).length = top_count := by
    rw [List.length_take]
    exact Nat.min_eq_left hlen
  refine ⟨?_, hne, ha, hb⟩
  have hang : (breedChild ase df tors grid top_count mp r).1.angles
      = (breedGenes df grid mp (randomSample2 top_count r).1.1
          (randomSample2 top_count r).1.2 tors 0 (randomSample2 top_count r).2).1 := rfl
  have hspec : (breedChildFromElite (df.take top_count) tors grid mp r).1
      = (breedGenes (df.take top_count) grid mp
          (randomSample2 (df.take top_count).length r).1.1
          (randomSample2 (df.take top_count).length r).1.2 tors 0
          (randomSample2 (df.take top_count).length r).2).1 := rfl
  rw [hang, hspec, hlen2,
    breedGenes_rows_eq df (df.take top_count) grid mp (randomSample2 top_count r).1.1
      (randomSample2 top_count r).1.2
      ((getD_take_of_lt df top_count (randomSample2 top_count r).1.1 ⟨0, []⟩ ha).symm)
      ((getD_take_of_lt df top_count (randomSample2 top_count r).1.2 ⟨0, []⟩ hb).symm)
      tors 0 (randomSample2 top_count r).2]

/-- Witness for the amended C7 at a concrete input. -/
theorem breeding_refines_elite_operator_witness :
    (breedChild sumAse popA [torsion0] (np_arange 0 360 30) 2 (1 / 5) zeroRng).1.angles
        = (breedChildFromElite (popA.take 2) [torsion0] (np_arange 0 360 30) (1 / 5) zeroRng).1
    ∧ (randomSample2 2 zeroRng).1.1 ≠ (randomSample2 2 zeroRng).1.2
    ∧ (randomSample2 2 zeroRng).1.1 < 2
    ∧ (randomSample2 2 zeroRng).1.2 < 2 :=
  breeding_refines_elite_operator sumAse popA [torsion0] (np_arange 0 360 30) (1 / 5) 2
    zeroRng (by decide) (by decide)

/-- C8: the snapshot side effect is pure with respect to the algorithm.  For
the same inputs and the same random streams, running with store_generations
true and with store_generations false produces the same sequence of stored
generations (hence the same convergence decisions) and the same returned
final Population; only the snapshot list differs.  The same holds on the
error branches, which do not consult the flag. -/
theorem snapshot_side_effect_frame (m : MultiObject) (pop : List Individual) (tp tol : ℚ)
    (mg : Nat) (sd : String) (mp delta : ℚ) (r : Rng) :
    Except.map (fun res => (res.trace, res.final))
        (perform_ga m pop tp tol mg true sd mp delta r)
      = Except.map (fun res => (res.trace, res.final))
        (perform_ga m pop tp tol mg false sd mp delta r) := by
  unfold perform_ga
  cases hres : resolveObject m with
  | none => rfl
  | some ot =>
    by_cases h0 : pop.length = 0
    · simp [h0]
    · by_cases h2 : (select_top_population pop tp).length < 2
      · simp [h0, h2]
      · simp only [if_neg h0, if_neg h2, Except.map]
        have hfr := gaLoopAux_store_frame (mkCtx m pop tp tol mg false sd mp delta ot)
          (mg - 0 + 1) 0 pop (select_top_population pop tp) r
        exact congrArg Except.ok (Prod.ext_iff.mpr ⟨hfr.1, hfr.2⟩)

/-- C9: the run is a pure function of the seeded random source, the initial
Population, the configuration and the evaluator carried by the multi object —
the model threads every random draw of the Python random module and of the
numpy RNG through the explicit Rng argument, and the evaluator is the
get_potential_energy function of the resolved object, so two runs with equal
seeds and equal inputs return equal results: the same trace of generations,
the same final Population and the same snapshots. -/
theorem run_deterministic_given_seed
    (m1 m2 : MultiObject) (pop1 pop2 : List Individual) (tp1 tp2 tol1 tol2 : ℚ)
    (mg1 mg2 : Nat) (st1 st2 : Bool) (sd1 sd2 : String) (mp1 mp2 d1 d2 : ℚ) (r1 r2 : Rng)
    (hm : m1 = m2) (hpop : pop1 = pop2) (htp : tp1 = tp2) (htol : tol1 = tol2)
    (hmg : mg1 = mg2) (hst : st1 = st2) (hsd : sd1 = sd2) (hmp : mp1 = mp2)
    (hd : d1 = d2) (hr : r1 = r2) :
    perform_ga m1 pop1 tp1 tol1 mg1 st1 sd1 mp1 d1 r1
      = perform_ga m2 pop2 tp2 tol2 mg2 st2 sd2 mp2 d2 r2 := by
  subst hm hpop htp htol hmg hst hsd hmp hd hr
  rfl

/-- Witness for C9 at a concrete input. -/
theorem run_deterministic_given_seed_witness :
    perform_ga molObj popA 1 (1 / 100000) 2 false "." (1 / 5) 30 zeroRng
      = perform_ga molObj popA 1 (1 / 100000) 2 false "." (1 / 5) 30 zeroRng :=
  run_deterministic_given_seed molObj molObj popA popA 1 1 (1 / 100000) (1 / 100000) 2 2
    false false "." "." (1 / 5) (1 / 5) 30 30 zeroRng zeroRng rfl rfl rfl rfl rfl rfl rfl
    rfl rfl rfl

/-- C10: when the class name matches none of the three recognised kinds, the
local variables ase_object and torsions are never assigned, and the run fails
with the NameError raised by enumerate(torsions) at the first gene of the
first child of generation 1 (after the parent sampling of line 106, which
needs an elite of at least 2, and inside a loop body only entered for a
nonempty population) — it neither raises an error before the generation
starts nor returns a Population. -/
theorem unknown_class_name_error_in_first_generation
    (m : MultiObject) (pop : List Individual) (tp tol : ℚ) (mg : Nat) (store : Bool)
    (sd : String) (mp delta : ℚ) (r : Rng)
    (hnone : resolveObject m = none)
    (hpop : 1 ≤ pop.length)
    (helite : 2 ≤ (select_top_population pop tp).length) :
    perform_ga m pop tp tol mg store sd mp delta r = .error (.nameError "torsions" 1) := by
  unfold perform_ga
  simp only [hnone]
  rw [if_neg (by omega), if_neg (by omega)]

/-- A multi object whose class name matches none of the recognised kinds. -/
def weirdObj : MultiObject :=
  { className := "SomeOtherThing", ase_molecule := sumAse, torsions := [torsion0],
    ts := { ase_ts := sumAse, torsions := [] }, ase_ts := sumAse }

/-- Witness for C10 at a concrete input. -/
theorem unknown_class_name_error_in_first_generation_witness :
    perform_ga weirdObj popA 1 (1 / 100000) 500 false "." (1 / 5) 30 zeroRng
      = .error (.nameError "torsions" 1) :=
  unknown_class_name_error_in_first_generation weirdObj popA 1 (1 / 100000) 500 false "."
    (1 / 5) 30 zeroRng (by with_unfolding_all rfl) (by with_unfolding_all decide)
    (by with_unfolding_all decide)

end AutoTST
